import Mathlib

/-!
Verification development for the `osx-cpu-monitor` repository.

The definitions below are a shallow embedding of the threshold-alerting and
event-dispatch subsystem:

* `src/system_metrics/alerts/thresholds.py` (`CPUThresholdMonitor`),
* `src/system_metrics/alerts/network_thresholds.py` (`NetworkThresholdMonitor`),
* `src/system_metrics/realtime/events.py` (`MetricsEventDispatcher`).

Python floats are modelled as rationals (`ℚ`); the numeric operations the
alerting code performs on them (comparison, subtraction, averaging, division
by constants) are exact on every value exercised here.  Python dicts are
modelled as association lists with insertion-order-preserving update
(`upsert` / `alookup`).  Mutation is modelled by explicit state passing.
-/

/-- Alert severity levels (`AlertSeverity` in `thresholds.py`). -/
inductive AlertSeverity where
  | INFO
  | WARNING
  | CRITICAL
deriving DecidableEq, Repr

/-- Configuration for a threshold-based alert (`ThresholdConfig` dataclass,
`thresholds.py` lines 35-44).  The `alert_type` enum member is carried as its
name string. -/
structure ThresholdConfig where
  threshold : ℚ
  duration_seconds : ℚ
  severity : AlertSeverity
  alert_type : String
  alert_message : String
  check_interval : ℚ := 5
  cooldown_minutes : ℚ := 10
deriving DecidableEq, Repr

/-- State tracking for a threshold alert (`AlertState` dataclass,
`thresholds.py` lines 47-54). -/
structure AlertState where
  config : ThresholdConfig
  exceeded_since : Option ℚ := none
  last_alert_time : ℚ := 0
  current_value : ℚ := 0
  is_active : Bool := false
deriving DecidableEq, Repr

/-- `AlertState(config=cfg)` with the dataclass defaults: the state built by
`_initialize_alert_states` and by the reset at the end of `set_threshold`. -/
def AlertState.fresh (cfg : ThresholdConfig) : AlertState :=
  { config := cfg }

/-- Breach test.  For `inverted = false` this is the `current_value >=
config.threshold` comparison used by every CPU check and by all network
thresholds except `wifi_signal_low`; for `inverted = true` it is the
`current_value <= config.threshold` comparison `NetworkThresholdMonitor.
_check_threshold` (lines 416-422) applies when `name == "wifi_signal_low"`. -/
def breachB (inverted : Bool) (threshold v : ℚ) : Bool :=
  if inverted then decide (v ≤ threshold) else decide (threshold ≤ v)

/-- One evaluation of a single alert state against a current value at a given
time.  This is the per-threshold body shared verbatim by
`CPUThresholdMonitor._check_cpu_thresholds` (lines 346-370),
`_check_core_thresholds`, `_check_process_thresholds`, `_check_sustained_load`
and `NetworkThresholdMonitor._check_threshold` (lines 411-444): set
`current_value`; if the threshold is breached, arm `exceeded_since` (keeping
an earlier arming time), and fire exactly when the duration gate, the
`not is_active` gate and the cooldown gate all pass, recording
`last_alert_time` and setting `is_active`; on a non-breaching value reset
`exceeded_since` and `is_active`.  The returned flag records whether
`_generate_alert` was called on this tick. -/
def thresholdStep (inverted : Bool) (s : AlertState) (v t : ℚ) : AlertState × Bool :=
  if breachB inverted s.config.threshold v then
    let es := s.exceeded_since.getD t
    if decide (s.config.duration_seconds ≤ t - es) && !s.is_active then
      if decide (s.config.cooldown_minutes * 60 ≤ t - s.last_alert_time) then
        ({ s with current_value := v, exceeded_since := some es,
                  last_alert_time := t, is_active := true }, true)
      else
        ({ s with current_value := v, exceeded_since := some es }, false)
    else
      ({ s with current_value := v, exceeded_since := some es }, false)
  else
    ({ s with current_value := v, exceeded_since := none, is_active := false }, false)

/-- Iterate `thresholdStep` over a list of `(value, timestamp)` ticks,
counting how many ticks generated an alert.  This models feeding one threshold
state a sequence of periodic check-loop observations. -/
def runThreshold (inverted : Bool) : AlertState → List (ℚ × ℚ) → AlertState × ℕ
  | s, [] => (s, 0)
  | s, p :: rest =>
    let r := thresholdStep inverted s p.1 p.2
    let q := runThreshold inverted r.1 rest
    (q.1, (if r.2 then 1 else 0) + q.2)

/-- Lookup in an association list (a Python dict read `d[k]` / `k in d`). -/
def alookup {κ α : Type} [DecidableEq κ] (k : κ) : List (κ × α) → Option α
  | [] => none
  | p :: rest => if p.1 = k then some p.2 else alookup k rest

/-- Python dict write `d[k] = v`: replace in place if the key exists
(preserving its position), otherwise append. -/
def upsert {κ α : Type} [DecidableEq κ] (k : κ) (v : α) (l : List (κ × α)) :
    List (κ × α) :=
  if l.any (fun p => p.1 = k) then
    l.map (fun p => if p.1 = k then (k, v) else p)
  else l ++ [(k, v)]

/-- Keys of an association list (Python `d.keys()` in insertion order). -/
def akeys {κ α : Type} (l : List (κ × α)) : List κ :=
  l.map Prod.fst

/-- The invariant of claim C4: an active alert always has an arming
timestamp. -/
def stateInv (s : AlertState) : Prop :=
  s.is_active = true → s.exceeded_since ≠ none

/-- Truthiness of an optional string argument: Python's `if alert_message:`
and `alert_message or default` treat both `None` and `""` as falsy
(`set_threshold`, `thresholds.py` lines 188 and 196). -/
def pyTruthyStr (o : Option String) : Option String :=
  match o with
  | none => none
  | some s => if s = "" then none else some s

/-- The slice of `CPUThresholdMonitor` state that `set_threshold`, the
per-tick CPU check and `get_active_alerts` operate on: the named threshold
registry `_thresholds` and the alert-state map `_alert_states`. -/
structure Monitor where
  thresholds : List (String × ThresholdConfig)
  alert_states : List (String × AlertState)
deriving DecidableEq, Repr

/-- `CPUThresholdMonitor.set_threshold` (`thresholds.py` lines 155-201).
For an unknown name a new `ThresholdConfig` is created (with an alert type
derived from the name prefix and the default message); for a known name the
existing config object's fields are overwritten.  No validation of any kind
is performed on `threshold` or `duration_seconds`.  Finally, if (and only if)
the name already has an entry in `_alert_states`, that entry is replaced by a
fresh `AlertState` built from the new config. -/
def setThreshold (m : Monitor) (name : String) (threshold duration_seconds : ℚ)
    (severity : AlertSeverity) (alert_message : Option String) : Monitor :=
  let newCfg : ThresholdConfig :=
    match alookup name m.thresholds with
    | none =>
      { threshold := threshold
        duration_seconds := duration_seconds
        severity := severity
        alert_type :=
          if name.startsWith "cpu_" then "CPU_USAGE_HIGH"
          else if name.startsWith "process_" then "PROCESS_CPU_USAGE_HIGH"
          else "CPU_USAGE_HIGH"
        alert_message :=
          (pyTruthyStr alert_message).getD
            "Threshold \x7bthreshold\x7d% exceeded for \x7bduration\x7d minutes" }
    | some cfg =>
      { cfg with
        threshold := threshold
        duration_seconds := duration_seconds
        severity := severity
        alert_message := (pyTruthyStr alert_message).getD cfg.alert_message }
  { thresholds := upsert name newCfg m.thresholds
    alert_states :=
      if (alookup name m.alert_states).isSome then
        upsert name (AlertState.fresh newCfg) m.alert_states
      else m.alert_states }

/-- The basic-threshold part of `_initialize_alert_states` (`thresholds.py`
lines 254-258, identically `network_thresholds.py` lines 284-288): build a
fresh `AlertState` for every registered threshold config. -/
def initializeAlertStates (thresholds : List (String × ThresholdConfig)) :
    List (String × AlertState) :=
  thresholds.map (fun p => (p.1, AlertState.fresh p.2))

/-- The per-threshold loop of `CPUThresholdMonitor._check_cpu_thresholds`
(`thresholds.py` lines 340-370): iterate over `_alert_states`, skip names not
starting with `"cpu_"`, and run the shared evaluation step on each remaining
state with the current overall CPU usage.  Returns the updated state map and
the names of the thresholds for which `_generate_alert` fired this tick. -/
def checkCpuThresholds (states : List (String × AlertState)) (cpu_usage now : ℚ) :
    List (String × AlertState) × List String :=
  match states with
  | [] => ([], [])
  | p :: rest =>
    let r := checkCpuThresholds rest cpu_usage now
    if p.1.startsWith "cpu_" then
      let q := thresholdStep false p.2 cpu_usage now
      ((p.1, q.1) :: r.1, if q.2 then p.1 :: r.2 else r.2)
    else
      (p :: r.1, r.2)

/-- The `_alert_states` section of `get_active_alerts` (`thresholds.py`
lines 210-222): the names reported are exactly those whose state is active. -/
def getActiveAlertNames (states : List (String × AlertState)) : List String :=
  (states.filter (fun p => p.2.is_active)).map Prod.fst

/-- The history entries within the trailing 5-minute window
(`_check_sustained_load`, `thresholds.py` lines 523-524;
`_check_sustained_bandwidth`, `network_thresholds.py` lines 653-654).
History entries are `(timestamp, value)` pairs. -/
def fiveMinData (hist : List (ℚ × ℚ)) (now : ℚ) : List (ℚ × ℚ) :=
  hist.filter (fun p => decide (now - 300 ≤ p.1))

/-- The history entries within the trailing 10-minute window
(`thresholds.py` lines 531-532). -/
def tenMinData (hist : List (ℚ × ℚ)) (now : ℚ) : List (ℚ × ℚ) :=
  hist.filter (fun p => decide (now - 600 ≤ p.1))

/-- `sum(val for _, val in data) / len(data)`: the mean of the values of a
window.  (Only ever applied to non-empty windows by the code.) -/
def windowMean (l : List (ℚ × ℚ)) : ℚ :=
  (l.map Prod.snd).sum / (l.length : ℚ)

/-- `five_min_avg` (`thresholds.py` lines 525-528): the 5-minute window mean,
or `0` for an empty window. -/
def fiveMinAvg (hist : List (ℚ × ℚ)) (now : ℚ) : ℚ :=
  if fiveMinData hist now = [] then 0 else windowMean (fiveMinData hist now)

/-- `ten_min_avg` (`thresholds.py` lines 533-536): the 10-minute window mean
when that window holds at least 10 samples, else `0`.  (The source guard
`ten_min_data and len(ten_min_data) >= 10` is equivalent to the length
test alone.) -/
def tenMinAvg (hist : List (ℚ × ℚ)) (now : ℚ) : ℚ :=
  if 10 ≤ (tenMinData hist now).length then windowMean (tenMinData hist now) else 0

/-- `sustained_state.current_value = ten_min_avg if ten_min_avg > 0 else
five_min_avg` (`thresholds.py` line 539): the aggregate fed to the sustained
threshold's state machine. -/
def sustainedValue (hist : List (ℚ × ℚ)) (now : ℚ) : ℚ :=
  if 0 < tenMinAvg hist now then tenMinAvg hist now else fiveMinAvg hist now

/-- `CPUThresholdMonitor._check_sustained_load` (`thresholds.py` lines
498-562) for a resolved sustained config/state: return unchanged when fewer
than 10 history samples exist; otherwise run the shared evaluation step
(lines 542-559, textually identical to the `_check_cpu_thresholds` body) on
the computed aggregate — never on an instantaneous reading. -/
def checkSustainedLoad (hist : List (ℚ × ℚ)) (s : AlertState) (now : ℚ) :
    AlertState × Bool :=
  if hist.length < 10 then (s, false)
  else thresholdStep false s (sustainedValue hist now) now

/-- `NetworkThresholdMonitor._check_threshold` (`network_thresholds.py` lines
398-444) at the state-map level: return immediately when `name` has no entry
in `_alert_states`; otherwise run the evaluation step (with the inverted
comparison exactly when `name == "wifi_signal_low"`) and store the updated
state. -/
def netCheckThreshold (states : List (String × AlertState)) (name : String)
    (v t : ℚ) : List (String × AlertState) × Bool :=
  match alookup name states with
  | none => (states, false)
  | some st =>
    let r := thresholdStep (decide (name = "wifi_signal_low")) st v t
    (upsert name r.1 states, r.2)

/-- `NetworkThresholdMonitor._check_wifi_thresholds` (`network_thresholds.py`
lines 590-608): when the WiFi link reports connected, feed the reported
signal strength to `_check_threshold("wifi_signal_low", ...)`; otherwise do
nothing. -/
def checkWifiThresholds (connected : Bool) (signal : ℚ)
    (states : List (String × AlertState)) (now : ℚ) :
    List (String × AlertState) × Bool :=
  if connected then netCheckThreshold states "wifi_signal_low" signal now
  else (states, false)

/-- Iterate `checkWifiThresholds` over a list of
`(connected, signal_strength, timestamp)` observations, counting alerts. -/
def runWifiTicks (states : List (String × AlertState)) :
    List (Bool × ℚ × ℚ) → List (String × AlertState) × ℕ
  | [] => (states, 0)
  | p :: rest =>
    let r := checkWifiThresholds p.1 p.2.1 states p.2.2
    let q := runWifiTicks r.1 rest
    (q.1, (if r.2 then 1 else 0) + q.2)

/-- One entry of the `get_top_processes()` snapshot consumed by
`CPUThresholdMonitor._check_process_thresholds` (`thresholds.py` lines
444-451): `proc.get("pid")` may be absent. -/
structure ProcEntry where
  pid : Option ℤ
  cpu_percent : ℚ
  command : String
deriving DecidableEq, Repr

/-- The pids present in the latest snapshot (`seen_pids`, built at
`thresholds.py` lines 441-449; entries without a pid are skipped). -/
def seenPids (procs : List ProcEntry) : List ℤ :=
  procs.filterMap ProcEntry.pid

/-- The per-process loop body of `_check_process_thresholds` (`thresholds.py`
lines 444-482) for one snapshot entry: skip entries without a pid; create the
pid's state dict from `_process_thresholds` on first sight; then run the
shared evaluation step on each of the pid's states with the entry's CPU
percentage. -/
def processOne (thr : List (String × ThresholdConfig)) (now : ℚ)
    (states : List (ℤ × List (String × AlertState))) (p : ProcEntry) :
    List (ℤ × List (String × AlertState)) :=
  match p.pid with
  | none => states
  | some pid =>
    let states1 :=
      match alookup pid states with
      | some _ => states
      | none => upsert pid (thr.map (fun q => (q.1, AlertState.fresh q.2))) states
    let entry := (alookup pid states1).getD []
    upsert pid
      (entry.map (fun q => (q.1, (thresholdStep false q.2 p.cpu_percent now).1)))
      states1

/-- `CPUThresholdMonitor._check_process_thresholds` (`thresholds.py` lines
427-493) at the state level: an empty snapshot returns early (line 435-436)
leaving the map untouched; otherwise every snapshot entry is processed and,
afterwards, the entries of pids absent from the snapshot whose states are all
inactive are deleted (lines 484-493). -/
def checkProcessThresholds (thr : List (String × ThresholdConfig))
    (states : List (ℤ × List (String × AlertState)))
    (procs : List ProcEntry) (now : ℚ) :
    List (ℤ × List (String × AlertState)) :=
  if procs.isEmpty then states
  else
    let states1 := procs.foldl (processOne thr now) states
    states1.filter
      (fun q => decide (q.1 ∈ seenPids procs) || q.2.any (fun r => r.2.is_active))

/-- The smallest exponent `k` (searched up to 40) with `den ∣ 10 ^ k`.  Every
float exactly representable as a decimal fraction has such a denominator. -/
def decExpOf (den : ℕ) : ℕ :=
  match (List.range 41).find? (fun k => decide (10 ^ k % den = 0)) with
  | some k => k
  | none => 0

/-- Left-pad a digit string with zeros to the given width. -/
def padLeftZeros (s : String) (n : ℕ) : String :=
  if n ≤ s.length then s
  else String.mk (List.replicate (n - s.length) '0') ++ s

/-- Drop trailing zeros of a digit string, keeping at least one digit. -/
def stripTrailingZeros (s : String) : String :=
  match s.toList.reverse.dropWhile (fun c => c = '0') with
  | [] => "0"
  | l => String.mk l.reverse

/-- Python `str()` of a float, for floats that are exact decimal fractions
(which covers every value rendered in the alert paths evaluated here): the
shortest decimal expansion, always with at least one fractional digit
(`str(90.0) = "90.0"`, `str(2.1) = "2.1"`). -/
def pyStrFloat (q : ℚ) : String :=
  let sgn := if q < 0 then "-" else ""
  let n : ℤ := |q.num|
  let k := decExpOf q.den
  if k = 0 then sgn ++ toString n ++ ".0"
  else
    let scaled : ℤ := n * (10 ^ k) / (q.den : ℤ)
    let ip := scaled / (10 ^ k)
    let fp := scaled % (10 ^ k)
    sgn ++ toString ip ++ "." ++ stripTrailingZeros (padLeftZeros (toString fp) k)

/-- Python `round(x, 1)` on the values arising here (none of which sit on a
rounding tie): round to the nearest tenth. -/
def pyRound1 (q : ℚ) : ℚ :=
  ((round (q * 10) : ℤ) : ℚ) / 10

/-- Python `f"{x:.2f}"` for the non-negative, non-tie values arising here:
fixed two-digit decimal rendering. -/
def format2f (q : ℚ) : String :=
  let n : ℤ := round (q * 100)
  toString (n / 100) ++ "." ++ padLeftZeros (toString (n % 100)) 2

/-- `NetworkThresholdMonitor._format_value_with_unit` (`network_thresholds.py`
lines 759-776): values above 10^6 rendered as `"X.XX MB/s"`, above 10^3 as
`"X.XX KB/s"`, otherwise `str(value)`. -/
def formatValueWithUnit (v : ℚ) : String :=
  if 1000000 < v then format2f (v / 1000000) ++ " MB/s"
  else if 1000 < v then format2f (v / 1000) ++ " KB/s"
  else pyStrFloat v

/-- Replace every non-overlapping occurrence of `pat` in the character list,
left to right, with `rep` — the semantics of Python `str.replace` (and of
Lean's own `String.replace`, re-stated here with fuel-based structural
recursion).  The fuel is the length of the subject string, which bounds the
number of recursion steps for the non-empty patterns used here. -/
def replaceFuel (rep pat : List Char) : ℕ → List Char → List Char
  | 0, l => l
  | _ + 1, [] => []
  | fuel + 1, c :: rest =>
    if pat ≠ [] ∧ (c :: rest).take pat.length = pat then
      rep ++ replaceFuel rep pat fuel ((c :: rest).drop pat.length)
    else
      c :: replaceFuel rep pat fuel rest

/-- `message.replace(pattern, replacement)` on strings. -/
def strReplace (s pat rep : String) : String :=
  String.mk (replaceFuel rep.toList pat.toList s.toList.length s.toList)

/-- `CPUThresholdMonitor._format_alert_message` (`thresholds.py` lines
612-650): `{threshold}` is substituted with `str(config.threshold)`,
`{value}` with `str(round(current_value, 1))`, `{duration}` with the minutes
elapsed since `exceeded_since` rounded to one decimal, and the entity
placeholders with their values when present (absent entries are `None` and
skipped).  No unit-aware formatting is applied. -/
def formatAlertMessageCpu (st : AlertState) (core_id pid : Option ℤ)
    (process_name : Option String) (now : ℚ) : String :=
  let exceeded_duration := now - (st.exceeded_since.getD now)
  let minutes := pyRound1 (exceeded_duration / 60)
  let m1 := strReplace st.config.alert_message "\x7bthreshold\x7d"
    (pyStrFloat st.config.threshold)
  let m2 := strReplace m1 "\x7bvalue\x7d" (pyStrFloat (pyRound1 st.current_value))
  let m3 := strReplace m2 "\x7bduration\x7d" (pyStrFloat minutes)
  let m4 := match core_id with
    | some c => strReplace m3 "\x7bcore_id\x7d" (toString c)
    | none => m3
  let m5 := match pid with
    | some p => strReplace m4 "\x7bpid\x7d" (toString p)
    | none => m4
  match process_name with
  | some pn => strReplace m5 "\x7bprocess_name\x7d" pn
  | none => m5

/-- `NetworkThresholdMonitor._format_alert_message` (`network_thresholds.py`
lines 722-757): as the CPU variant, but `{threshold}` and `{value}` are
rendered through `_format_value_with_unit` (and `{value}` is not
pre-rounded). -/
def formatAlertMessageNet (st : AlertState) (interface_name process_name : Option String)
    (now : ℚ) : String :=
  let exceeded_duration := now - (st.exceeded_since.getD now)
  let minutes := pyRound1 (exceeded_duration / 60)
  let m1 := strReplace st.config.alert_message "\x7bthreshold\x7d"
    (formatValueWithUnit st.config.threshold)
  let m2 := strReplace m1 "\x7bvalue\x7d" (formatValueWithUnit st.current_value)
  let m3 := strReplace m2 "\x7bduration\x7d" (pyStrFloat minutes)
  let m4 := match interface_name with
    | some i => strReplace m3 "\x7binterface_name\x7d" i
    | none => m3
  match process_name with
  | some pn => strReplace m4 "\x7bprocess_name\x7d" pn
  | none => m4

/-- Event data for metric updates (`MetricEvent` dataclass, `events.py` lines
40-48; the enum tag is carried as its name, the payload dict is not needed by
the dispatch logic). -/
structure MetricEvent where
  event_type : String
  timestamp : ℚ
  source : String
  message : String

/-- One attached observer as seen by `MetricsEventDispatcher._dispatch_event`
(`events.py` lines 243-274): `oid` identifies it, `alive` models whether its
weak reference still resolves, `eventFilter` is its optional entry in
`_event_filters`, and `update` is its callback, which either succeeds or
raises an exception carried as a message. -/
structure ObserverModel where
  oid : ℕ
  alive : Bool
  eventFilter : Option (List String)
  update : MetricEvent → Except String Unit

/-- The filtering at `events.py` lines 259-262: an observer with no filter
entry receives every event; one with a filter receives only the listed event
types. -/
def filterAllows (f : Option (List String)) (e : MetricEvent) : Bool :=
  match f with
  | none => true
  | some types => types.contains e.event_type

/-- `MetricsEventDispatcher._dispatch_event` (`events.py` lines 243-274):
walk the observer set; skip dead references and filtered-out observers; call
`update` on each remaining observer inside `try/except`, so an exception is
recorded (printed) and the walk continues.  Returns, in order, the id of each
observer whose `update` was invoked together with `none` on success or the
caught exception message. -/
def dispatchEvent (obs : List ObserverModel) (e : MetricEvent) :
    List (ℕ × Option String) :=
  match obs with
  | [] => []
  | o :: rest =>
    if o.alive then
      if filterAllows o.eventFilter e then
        let r : Option String :=
          match o.update e with
          | Except.ok _ => none
          | Except.error msg => some msg
        (o.oid, r) :: dispatchEvent rest e
      else dispatchEvent rest e
    else dispatchEvent rest e

/-- `MetricsEventDispatcher._dispatch_loop` (`events.py` lines 221-241): take
queued items in order; a `none` sentinel stops the worker; each real event is
dispatched, and since `_dispatch_event` never propagates observer exceptions
(each is caught at lines 265-268), the loop always reaches the next queued
event. -/
def dispatchLoop (obs : List ObserverModel) :
    List (Option MetricEvent) → List (List (ℕ × Option String))
  | [] => []
  | none :: _ => []
  | some e :: rest => dispatchEvent obs e :: dispatchLoop obs rest

/-- The default CPU threshold registry (`CPUThresholdMonitor.__init__`,
`thresholds.py` lines 76-98). -/
def cpuDefaultThresholds : List (String × ThresholdConfig) :=
  [("cpu_usage_high",
    { threshold := 80
      duration_seconds := 60
      severity := AlertSeverity.WARNING
      alert_type := "CPU_USAGE_HIGH"
      alert_message := "CPU usage has been above \x7bthreshold\x7d% for \x7bduration\x7d minutes" }),
   ("cpu_usage_very_high",
    { threshold := 90
      duration_seconds := 30
      severity := AlertSeverity.CRITICAL
      alert_type := "CPU_USAGE_VERY_HIGH"
      alert_message := "CPU usage is critically high at \x7bvalue\x7d%, exceeding \x7bthreshold\x7d%" }),
   ("cpu_usage_sustained",
    { threshold := 70
      duration_seconds := 600
      severity := AlertSeverity.WARNING
      alert_type := "CPU_USAGE_SUSTAINED"
      alert_message := "CPU has been under sustained load (>\x7bthreshold\x7d%) for \x7bduration\x7d minutes" })]

/-- The default per-process CPU threshold registry (`thresholds.py` lines
104-112). -/
def processThresholdsDefault : List (String × ThresholdConfig) :=
  [("process_cpu_high",
    { threshold := 50
      duration_seconds := 120
      severity := AlertSeverity.WARNING
      alert_type := "PROCESS_CPU_USAGE_HIGH"
      alert_message := "Process \x7bprocess_name\x7d (PID \x7bpid\x7d) has been using >\x7bthreshold\x7d% CPU for \x7bduration\x7d minutes" })]

/-- The default network threshold registry `_thresholds`
(`NetworkThresholdMonitor.__init__`, `network_thresholds.py` lines 53-96).
Note that `wifi_signal_low` is NOT in this dict. -/
def netDefaultThresholds : List (String × ThresholdConfig) :=
  [("bandwidth_usage_high",
    { threshold := 50000000
      duration_seconds := 60
      severity := AlertSeverity.WARNING
      alert_type := "BANDWIDTH_USAGE_HIGH"
      alert_message := "Network bandwidth usage has been above \x7bthreshold\x7d bytes/s for \x7bduration\x7d minutes" }),
   ("download_rate_high",
    { threshold := 40000000
      duration_seconds := 60
      severity := AlertSeverity.WARNING
      alert_type := "DOWNLOAD_RATE_HIGH"
      alert_message := "Download bandwidth has been above \x7bthreshold\x7d bytes/s for \x7bduration\x7d minutes" }),
   ("upload_rate_high",
    { threshold := 20000000
      duration_seconds := 60
      severity := AlertSeverity.WARNING
      alert_type := "UPLOAD_RATE_HIGH"
      alert_message := "Upload bandwidth has been above \x7bthreshold\x7d bytes/s for \x7bduration\x7d minutes" }),
   ("bandwidth_usage_very_high",
    { threshold := 80000000
      duration_seconds := 30
      severity := AlertSeverity.CRITICAL
      alert_type := "BANDWIDTH_USAGE_VERY_HIGH"
      alert_message := "Network bandwidth usage is critically high at \x7bvalue\x7d bytes/s, exceeding \x7bthreshold\x7d bytes/s" }),
   ("bandwidth_usage_sustained",
    { threshold := 10000000
      duration_seconds := 600
      severity := AlertSeverity.WARNING
      alert_type := "TOTAL_BANDWIDTH_SUSTAINED"
      alert_message := "Network has been under sustained load (>\x7bthreshold\x7d bytes/s) for \x7bduration\x7d minutes" }),
   ("connection_count_high",
    { threshold := 1000
      duration_seconds := 120
      severity := AlertSeverity.WARNING
      alert_type := "CONNECTION_COUNT_HIGH"
      alert_message := "Network connection count has been above \x7bthreshold\x7d for \x7bduration\x7d minutes" })]

/-- The WiFi threshold registry `_wifi_thresholds` (`network_thresholds.py`
lines 113-121), kept in a separate dict from `_thresholds`. -/
def wifiThresholdsDefault : List (String × ThresholdConfig) :=
  [("wifi_signal_low",
    { threshold := -75
      duration_seconds := 300
      severity := AlertSeverity.WARNING
      alert_type := "WIFI_SIGNAL_LOW"
      alert_message := "WiFi signal strength has been below \x7bthreshold\x7d dBm for \x7bduration\x7d minutes" })]

/-- The default `cpu_usage_high` configuration (`thresholds.py` lines 77-83),
used as a concrete fixture. -/
def cfgCpuHigh : ThresholdConfig :=
  { threshold := 80
    duration_seconds := 60
    severity := AlertSeverity.WARNING
    alert_type := "CPU_USAGE_HIGH"
    alert_message := "CPU usage has been above \x7bthreshold\x7d% for \x7bduration\x7d minutes" }

/-- The default `process_cpu_high` configuration (`thresholds.py` lines
105-111), used as a concrete fixture. -/
def cfgProcessCpuHigh : ThresholdConfig :=
  { threshold := 50
    duration_seconds := 120
    severity := AlertSeverity.WARNING
    alert_type := "PROCESS_CPU_USAGE_HIGH"
    alert_message := "Process \x7bprocess_name\x7d (PID \x7bpid\x7d) has been using >\x7bthreshold\x7d% CPU for \x7bduration\x7d minutes" }

/-- The default `cpu_usage_sustained` configuration (`thresholds.py` lines
91-97), used as a concrete fixture. -/
def cfgCpuSustained : ThresholdConfig :=
  { threshold := 70
    duration_seconds := 600
    severity := AlertSeverity.WARNING
    alert_type := "CPU_USAGE_SUSTAINED"
    alert_message := "CPU has been under sustained load (>\x7bthreshold\x7d%) for \x7bduration\x7d minutes" }

/-- The default `wifi_signal_low` configuration (`network_thresholds.py`
lines 114-120), used as a concrete fixture. -/
def cfgWifiSignalLow : ThresholdConfig :=
  { threshold := -75
    duration_seconds := 300
    severity := AlertSeverity.WARNING
    alert_type := "WIFI_SIGNAL_LOW"
    alert_message := "WiFi signal strength has been below \x7bthreshold\x7d dBm for \x7bduration\x7d minutes" }

/-- A concrete `cpu_usage_high` state whose alert has fired (at time 1060,
after breaching since time 1000). -/
def activeStateEx : AlertState :=
  { config := cfgCpuHigh
    exceeded_since := some 1000
    last_alert_time := 1060
    current_value := 90
    is_active := true }

/-- The CPU monitor immediately after `start()`: default thresholds with
freshly initialized alert states. -/
def m0cpu : Monitor :=
  { thresholds := cpuDefaultThresholds
    alert_states := initializeAlertStates cpuDefaultThresholds }

/-- A concrete CPU history: ten samples of 50% between t = 910 and t = 1000. -/
def hist0 : List (ℚ × ℚ) :=
  [(910, 50), (920, 50), (930, 50), (940, 50), (950, 50),
   (960, 50), (970, 50), (980, 50), (990, 50), (1000, 50)]

/-- A per-core alert state carrying the message template of the C7 example,
armed 125 seconds before time 1000. -/
def c7CoreState : AlertState :=
  { config :=
    { threshold := 90
      duration_seconds := 60
      severity := AlertSeverity.WARNING
      alert_type := "CPU_CORE_USAGE_HIGH"
      alert_message := "Core \x7bcore_id\x7d usage above \x7bthreshold\x7d% for \x7bduration\x7d minutes" }
    exceeded_since := some 875
    current_value := 93
    is_active := true }

/-- A CPU alert state whose current value 92.34 distinguishes the CPU
formatter (rounds to one decimal) from the unit-aware formatter (prints the
raw value below 10^3). -/
def c7ValueState : AlertState :=
  { config :=
    { threshold := 80
      duration_seconds := 60
      severity := AlertSeverity.WARNING
      alert_type := "CPU_USAGE_HIGH"
      alert_message := "value=\x7bvalue\x7d" }
    exceeded_since := some 0
    current_value := 9234 / 100
    is_active := true }

/-- A network alert state with the default `bandwidth_usage_very_high`
template, current value 2.5 MB/s, armed 125 seconds before time 1000. -/
def c7NetState : AlertState :=
  { config :=
    { threshold := 80000000
      duration_seconds := 30
      severity := AlertSeverity.CRITICAL
      alert_type := "BANDWIDTH_USAGE_VERY_HIGH"
      alert_message := "Network bandwidth usage is critically high at \x7bvalue\x7d bytes/s, exceeding \x7bthreshold\x7d bytes/s" }
    exceeded_since := some 875
    current_value := 2500000
    is_active := true }

/-- A process-state map holding a single stale, inactive entry for pid 7. -/
def c9StaleStates : List (ℤ × List (String × AlertState)) :=
  [(7, [("process_cpu_high", AlertState.fresh cfgProcessCpuHigh)])]

/-- A process-state map with an active entry for pid 3 and an inactive entry
for pid 9. -/
def c9MixedStates : List (ℤ × List (String × AlertState)) :=
  [(3, [("process_cpu_high",
        { config := cfgProcessCpuHigh
          exceeded_since := some 500
          last_alert_time := 700
          current_value := 80
          is_active := true })]),
   (9, [("process_cpu_high", AlertState.fresh cfgProcessCpuHigh)])]

theorem thresholdStep_not_breach (inverted : Bool) (s : AlertState) (v t : ℚ)
    (h : breachB inverted s.config.threshold v = false) :
    thresholdStep inverted s v t =
      ({ s with current_value := v, exceeded_since := none, is_active := false }, false) := by
  simp [thresholdStep, h]

theorem thresholdStep_breach_active (inverted : Bool) (s : AlertState) (v t : ℚ)
    (hb : breachB inverted s.config.threshold v = true) (ha : s.is_active = true) :
    thresholdStep inverted s v t =
      ({ s with current_value := v,
                exceeded_since := some (s.exceeded_since.getD t) }, false) := by
  simp [thresholdStep, hb, ha]

theorem thresholdStep_breach_short (inverted : Bool) (s : AlertState) (v t : ℚ)
    (hb : breachB inverted s.config.threshold v = true)
    (hd : ¬ s.config.duration_seconds ≤ t - s.exceeded_since.getD t) :
    thresholdStep inverted s v t =
      ({ s with current_value := v,
                exceeded_since := some (s.exceeded_since.getD t) }, false) := by
  simp [thresholdStep, hb, hd]

theorem thresholdStep_fire (inverted : Bool) (s : AlertState) (v t : ℚ)
    (hb : breachB inverted s.config.threshold v = true)
    (hd : s.config.duration_seconds ≤ t - s.exceeded_since.getD t)
    (ha : s.is_active = false)
    (hc : s.config.cooldown_minutes * 60 ≤ t - s.last_alert_time) :
    thresholdStep inverted s v t =
      ({ s with current_value := v,
                exceeded_since := some (s.exceeded_since.getD t),
                last_alert_time := t, is_active := true }, true) := by
  simp [thresholdStep, hb, hd, ha, hc]

theorem runThreshold_append (inverted : Bool) (l1 l2 : List (ℚ × ℚ)) :
    ∀ s : AlertState,
    runThreshold inverted s (l1 ++ l2) =
      ((runThreshold inverted (runThreshold inverted s l1).1 l2).1,
       (runThreshold inverted s l1).2 +
         (runThreshold inverted (runThreshold inverted s l1).1 l2).2) := by
  induction l1 with
  | nil => intro s; simp [runThreshold]
  | cons p rest ih =>
    intro s
    simp only [List.cons_append, runThreshold, List.append_eq, ih, Nat.add_assoc]

theorem run_active_absorb (inverted : Bool) (l : List (ℚ × ℚ)) :
    ∀ s : AlertState, s.is_active = true →
    (∀ p ∈ l, breachB inverted s.config.threshold p.1 = true) →
    (runThreshold inverted s l).2 = 0 ∧
    (runThreshold inverted s l).1.is_active = true ∧
    (runThreshold inverted s l).1.config = s.config := by
  induction l with
  | nil => intro s ha _; exact ⟨rfl, ha, rfl⟩
  | cons p rest ih =>
    intro s ha hb
    have hbp : breachB inverted s.config.threshold p.1 = true :=
      hb p (List.mem_cons_self p rest)
    have hstep := thresholdStep_breach_active inverted s p.1 p.2 hbp ha
    have hrest := ih { s with current_value := p.1,
                              exceeded_since := some (s.exceeded_since.getD p.2) }
      ha (fun q hq => hb q (List.mem_cons_of_mem p hq))
    simp only [runThreshold, hstep]
    exact ⟨by simpa using hrest.1, hrest.2.1, hrest.2.2⟩

theorem run_armed_noalert (inverted : Bool) (l : List (ℚ × ℚ)) :
    ∀ (s : AlertState) (e : ℚ), s.is_active = false → s.exceeded_since = some e →
    (∀ p ∈ l, breachB inverted s.config.threshold p.1 = true ∧
              p.2 - e < s.config.duration_seconds) →
    (runThreshold inverted s l).2 = 0 ∧
    (runThreshold inverted s l).1.is_active = false ∧
    (runThreshold inverted s l).1.exceeded_since = some e ∧
    (runThreshold inverted s l).1.last_alert_time = s.last_alert_time ∧
    (runThreshold inverted s l).1.config = s.config := by
  induction l with
  | nil => intro s e ha he _; exact ⟨rfl, ha, he, rfl, rfl⟩
  | cons p rest ih =>
    intro s e ha he hl
    obtain ⟨hbp, hdp⟩ := hl p (List.mem_cons_self p rest)
    have hgd : s.exceeded_since.getD p.2 = e := by rw [he]; rfl
    have hd : ¬ s.config.duration_seconds ≤ p.2 - s.exceeded_since.getD p.2 := by
      rw [hgd]; exact not_le.mpr hdp
    have hstep := thresholdStep_breach_short inverted s p.1 p.2 hbp hd
    rw [hgd] at hstep
    have hrest := ih { s with current_value := p.1, exceeded_since := some e } e
      ha rfl (fun q hq => hl q (List.mem_cons_of_mem p hq))
    simp only [runThreshold, hstep]
    exact ⟨by simpa using hrest.1, hrest.2.1, hrest.2.2.1, hrest.2.2.2.1, hrest.2.2.2.2⟩

theorem run_armed_count (l : List (ℚ × ℚ)) :
    ∀ (s : AlertState) (e : ℚ), s.is_active = false → s.exceeded_since = some e →
    s.last_alert_time = 0 → s.config.cooldown_minutes * 60 ≤ e →
    (∀ p ∈ l, breachB false s.config.threshold p.1 = true ∧ e ≤ p.2) →
    (runThreshold false s l).2 =
      (if ∃ p ∈ l, s.config.duration_seconds ≤ p.2 - e then 1 else 0) := by
  induction l with
  | nil => intro s e _ _ _ _ _; simp [runThreshold]
  | cons p rest ih =>
    intro s e ha he hlast hcool hl
    obtain ⟨hbp, hep⟩ := hl p (List.mem_cons_self p rest)
    have hgd : s.exceeded_since.getD p.2 = e := by rw [he]; rfl
    by_cases hdur : s.config.duration_seconds ≤ p.2 - e
    · have hc : s.config.cooldown_minutes * 60 ≤ p.2 - s.last_alert_time := by
        rw [hlast]
        calc s.config.cooldown_minutes * 60 ≤ e := hcool
          _ ≤ p.2 := hep
          _ = p.2 - 0 := by ring
      have hstep := thresholdStep_fire false s p.1 p.2 hbp (by rw [hgd]; exact hdur) ha hc
      rw [hgd] at hstep
      have habs := run_active_absorb false rest
        { s with current_value := p.1, exceeded_since := some e,
                 last_alert_time := p.2, is_active := true }
        rfl (fun q hq => (hl q (List.mem_cons_of_mem p hq)).1)
      have hex : ∃ q ∈ p :: rest, s.config.duration_seconds ≤ q.2 - e :=
        ⟨p, List.mem_cons_self p rest, hdur⟩
      simp only [runThreshold, hstep]
      rw [habs.1, if_pos hex]
      simp
    · have hstep := thresholdStep_breach_short false s p.1 p.2 hbp (by rw [hgd]; exact hdur)
      rw [hgd] at hstep
      have hrest := ih { s with current_value := p.1, exceeded_since := some e } e
        ha rfl hlast hcool (fun q hq => hl q (List.mem_cons_of_mem p hq))
      have hiff : (∃ q ∈ p :: rest, s.config.duration_seconds ≤ q.2 - e) ↔
          (∃ q ∈ rest, s.config.duration_seconds ≤ q.2 - e) := by
        constructor
        · rintro ⟨q, hq, hle⟩
          rcases List.mem_cons.mp hq with h | h
          · exact absurd (h ▸ hle) hdur
          · exact ⟨q, h, hle⟩
        · rintro ⟨q, hq, hle⟩
          exact ⟨q, List.mem_cons_of_mem p hq, hle⟩
      simp only [runThreshold, hstep]
      rw [if_congr hiff rfl rfl]
      simpa using hrest

theorem alookup_upsert_self {κ α : Type} [DecidableEq κ] (k : κ) (v : α)
    (l : List (κ × α)) : alookup k (upsert k v l) = some v := by
  induction l with
  | nil => simp [upsert, alookup]
  | cons p rest ih =>
    by_cases hp : p.1 = k
    · simp [upsert, alookup, hp]
    · by_cases hr : rest.any (fun q => q.1 = k)
      · simp only [upsert, hr, List.any_cons, hp] at ih ⊢
        simpa [alookup, hp] using ih
      · simp only [upsert, hr, List.any_cons, hp] at ih ⊢
        simpa [alookup, hp] using ih

theorem alookup_map_entry_ne {κ α : Type} [DecidableEq κ] (k k2 : κ) (v : α)
    (h : k2 ≠ k) :
    ∀ l : List (κ × α),
      alookup k2 (l.map (fun p => if p.1 = k then (k, v) else p)) = alookup k2 l := by
  intro l
  induction l with
  | nil => rfl
  | cons p rest ih =>
    by_cases hp : p.1 = k
    · have hp2 : ¬ k = k2 := Ne.symm h
      have hpk2 : ¬ p.1 = k2 := by rw [hp]; exact hp2
      simp [alookup, hp, hp2, hpk2, ih]
    · simp only [List.map_cons, if_neg hp]
      by_cases hq : p.1 = k2
      · simp [alookup, hq]
      · simp [alookup, hq, ih]

theorem alookup_append_single_ne {κ α : Type} [DecidableEq κ] (k k2 : κ) (v : α)
    (h : k2 ≠ k) :
    ∀ l : List (κ × α), alookup k2 (l ++ [(k, v)]) = alookup k2 l := by
  intro l
  induction l with
  | nil =>
    have h2 : ¬ k = k2 := Ne.symm h
    simp [alookup, h2]
  | cons p rest ih =>
    by_cases hq : p.1 = k2
    · simp [alookup, hq]
    · simp [alookup, hq, ih]

theorem alookup_upsert_ne {κ α : Type} [DecidableEq κ] (k k2 : κ) (v : α)
    (l : List (κ × α)) (h : k2 ≠ k) : alookup k2 (upsert k v l) = alookup k2 l := by
  by_cases hl : l.any (fun p => p.1 = k)
  · rw [upsert, if_pos hl]
    exact alookup_map_entry_ne k k2 v h l
  · rw [upsert, if_neg hl]
    exact alookup_append_single_ne k k2 v h l

theorem alookup_eq_none_iff {κ α : Type} [DecidableEq κ] (k : κ) (l : List (κ × α)) :
    alookup k l = none ↔ k ∉ akeys l := by
  induction l with
  | nil => simp [alookup, akeys]
  | cons p rest ih =>
    by_cases hp : p.1 = k
    · simp [alookup, akeys, hp]
    · have hs : ¬ k = p.1 := fun hh => hp hh.symm
      simp [alookup, akeys, hp, hs, ih]

theorem alookup_map_snd {κ α β : Type} [DecidableEq κ] (k : κ) (f : α → β)
    (l : List (κ × α)) :
    alookup k (l.map (fun p => (p.1, f p.2))) = (alookup k l).map f := by
  induction l with
  | nil => simp [alookup]
  | cons p rest ih =>
    by_cases hp : p.1 = k
    · simp [alookup, hp]
    · simp [alookup, hp, ih]

theorem akeys_map_entry {κ α : Type} [DecidableEq κ] (k : κ) (v : α)
    (l : List (κ × α)) :
    akeys (l.map (fun p => if p.1 = k then (k, v) else p)) = akeys l := by
  induction l with
  | nil => rfl
  | cons p rest ih =>
    have hpt : ∀ (a : κ) (b : α), (a, b) ∈ rest → (if a = k then (k, v) else (a, b)).1 = a := by
      intro a b _
      by_cases ha : a = k
      · simp [ha]
      · simp [ha]
    by_cases hp : p.1 = k
    · simp [akeys, hp, ih]
      exact hpt
    · simp [akeys, hp, ih]
      exact hpt

theorem akeys_upsert {κ α : Type} [DecidableEq κ] (k : κ) (v : α)
    (l : List (κ × α)) :
    akeys (upsert k v l) =
      if l.any (fun p => p.1 = k) then akeys l else akeys l ++ [k] := by
  by_cases hl : l.any (fun p => p.1 = k)
  · rw [upsert, if_pos hl, if_pos hl]
    exact akeys_map_entry k v l
  · rw [upsert, if_neg hl, if_neg hl]
    simp [akeys]

theorem akeys_upsert_nodup {κ α : Type} [DecidableEq κ] (k : κ) (v : α)
    (l : List (κ × α)) (h : (akeys l).Nodup) : (akeys (upsert k v l)).Nodup := by
  rw [akeys_upsert]
  by_cases hl : l.any (fun p => p.1 = k)
  · rw [if_pos hl]; exact h
  · rw [if_neg hl]
    have hk : k ∉ akeys l := by
      intro hmem
      apply hl
      rw [List.any_eq_true]
      obtain ⟨p, hp, hpk⟩ := List.mem_map.mp hmem
      exact ⟨p, hp, by simpa using hpk⟩
    simpa [List.nodup_append] using ⟨h, hk⟩

theorem checkCpuThresholds_keys (states : List (String × AlertState)) (v t : ℚ) :
    akeys (checkCpuThresholds states v t).1 = akeys states := by
  induction states with
  | nil => rfl
  | cons p rest ih =>
    by_cases hs : p.1.startsWith "cpu_"
    · simp [checkCpuThresholds, hs, akeys] at ih ⊢
      exact ih
    · simp [checkCpuThresholds, hs, akeys] at ih ⊢
      exact ih

theorem checkCpuThresholds_fired_mem (states : List (String × AlertState)) (v t : ℚ) :
    ∀ n ∈ (checkCpuThresholds states v t).2, n ∈ akeys states := by
  induction states with
  | nil => intro n hn; simp [checkCpuThresholds] at hn
  | cons p rest ih =>
    intro n hn
    by_cases hs : p.1.startsWith "cpu_"
    · simp only [checkCpuThresholds, hs, if_pos] at hn
      by_cases hf : (thresholdStep false p.2 v t).2
      · simp only [hf, if_pos] at hn
        rcases List.mem_cons.mp hn with h | h
        · simp [akeys, h]
        · simp [akeys]
          right
          simpa [akeys] using ih n h
      · simp only [hf] at hn
        simp only [Bool.false_eq_true, if_false] at hn
        simp [akeys]
        right
        simpa [akeys] using ih n hn
    · simp only [checkCpuThresholds, hs, if_neg, Bool.false_eq_true] at hn
      simp [akeys]
      right
      simpa [akeys] using ih n hn

theorem getActiveAlertNames_mem (states : List (String × AlertState)) :
    ∀ n ∈ getActiveAlertNames states, n ∈ akeys states := by
  intro n hn
  obtain ⟨p, hp, hpn⟩ := List.mem_map.mp hn
  exact hpn ▸ List.mem_map.mpr ⟨p, (List.mem_filter.mp hp).1, rfl⟩

theorem alookup_filter_none {κ α : Type} [DecidableEq κ] (k : κ) (P : κ × α → Bool)
    (l : List (κ × α)) (h : k ∉ akeys l) : alookup k (l.filter P) = none := by
  rw [alookup_eq_none_iff]
  intro hmem
  apply h
  obtain ⟨p, hp, hpk⟩ := List.mem_map.mp hmem
  exact List.mem_map.mpr ⟨p, (List.mem_filter.mp hp).1, hpk⟩

theorem alookup_filter {κ α : Type} [DecidableEq κ] (k : κ) (P : κ × α → Bool)
    (l : List (κ × α)) (h : (akeys l).Nodup) :
    alookup k (l.filter P) =
      (match alookup k l with
       | some v => if P (k, v) then some v else none
       | none => none) := by
  induction l with
  | nil => rfl
  | cons p rest ih =>
    have h2 : p.1 ∉ akeys rest ∧ (akeys rest).Nodup := List.nodup_cons.mp h
    by_cases hp : p.1 = k
    · have hnm : k ∉ akeys rest := by rw [← hp]; exact h2.1
      have hfn : alookup k (rest.filter P) = none := alookup_filter_none k P rest hnm
      have hpe : P (k, p.2) = P p := by rw [← hp]
      by_cases hP : P p = true
      · simp [List.filter_cons, hP, alookup, hp, hpe]
      · have hP2 : P p = false := by revert hP; cases P p <;> simp
        simp [List.filter_cons, hP2, alookup, hp, hpe, hfn]
    · by_cases hP : P p = true
      · simp [List.filter_cons, hP, alookup, hp, ih h2.2]
      · have hP2 : P p = false := by revert hP; cases P p <;> simp
        simp [List.filter_cons, hP2, alookup, hp, ih h2.2]

theorem mem_seenPids (procs : List ProcEntry) (pid : ℤ) :
    pid ∈ seenPids procs ↔ ∃ p ∈ procs, p.pid = some pid := by
  simp [seenPids, List.mem_filterMap]

theorem processOne_frame (thr : List (String × ThresholdConfig)) (now : ℚ)
    (states : List (ℤ × List (String × AlertState))) (p : ProcEntry) (pid : ℤ)
    (h : ∀ q, p.pid = some q → q ≠ pid) :
    alookup pid (processOne thr now states p) = alookup pid states := by
  cases hp : p.pid with
  | none => simp [processOne, hp]
  | some q =>
    have hq : pid ≠ q := fun hh => h q hp hh.symm
    simp only [processOne, hp]
    cases hz : alookup q states with
    | some e =>
      simp only [hz]
      rw [alookup_upsert_ne q pid _ _ hq]
    | none =>
      simp only [hz]
      rw [alookup_upsert_ne q pid _ _ hq, alookup_upsert_ne q pid _ _ hq]

theorem processOne_isSome (thr : List (String × ThresholdConfig)) (now : ℚ)
    (states : List (ℤ × List (String × AlertState))) (p : ProcEntry) (pid : ℤ)
    (h : (alookup pid states).isSome) :
    (alookup pid (processOne thr now states p)).isSome := by
  cases hp : p.pid with
  | none => simpa [processOne, hp] using h
  | some q =>
    by_cases hq : pid = q
    · subst hq
      simp only [processOne, hp]
      cases hz : alookup pid states with
      | some e => simp [hz, alookup_upsert_self]
      | none => simp [hz] at h
    · rw [processOne_frame thr now states p pid (fun r hr hc => by
        rw [hp] at hr
        exact hq (by injection hr with hh; rw [hc] at hh; exact hh.symm))]
      exact h

theorem processOne_self_isSome (thr : List (String × ThresholdConfig)) (now : ℚ)
    (states : List (ℤ × List (String × AlertState))) (p : ProcEntry) (pid : ℤ)
    (h : p.pid = some pid) :
    (alookup pid (processOne thr now states p)).isSome := by
  simp only [processOne, h]
  cases hz : alookup pid states with
  | some e => simp [hz, alookup_upsert_self]
  | none => simp [hz, alookup_upsert_self]

theorem foldl_processOne_frame (thr : List (String × ThresholdConfig)) (now : ℚ)
    (procs : List ProcEntry) (pid : ℤ) (h : pid ∉ seenPids procs) :
    ∀ states, alookup pid (procs.foldl (processOne thr now) states) = alookup pid states := by
  induction procs with
  | nil => intro states; rfl
  | cons p rest ih =>
    intro states
    have hrest : pid ∉ seenPids rest := by
      intro hm
      apply h
      rw [mem_seenPids] at hm ⊢
      obtain ⟨q, hq, hqe⟩ := hm
      exact ⟨q, List.mem_cons_of_mem p hq, hqe⟩
    have hhead : ∀ q, p.pid = some q → q ≠ pid := by
      intro q hq hc
      apply h
      rw [mem_seenPids]
      exact ⟨p, List.mem_cons_self p rest, by rw [hq, hc]⟩
    rw [List.foldl_cons, ih hrest, processOne_frame thr now states p pid hhead]

theorem foldl_processOne_isSome (thr : List (String × ThresholdConfig)) (now : ℚ)
    (procs : List ProcEntry) (pid : ℤ) :
    ∀ states, (alookup pid states).isSome →
    (alookup pid (procs.foldl (processOne thr now) states)).isSome := by
  induction procs with
  | nil => intro states h; exact h
  | cons p rest ih =>
    intro states h
    rw [List.foldl_cons]
    exact ih _ (processOne_isSome thr now states p pid h)

theorem foldl_processOne_creates (thr : List (String × ThresholdConfig)) (now : ℚ)
    (procs : List ProcEntry) (pid : ℤ) (h : pid ∈ seenPids procs) :
    ∀ states, (alookup pid (procs.foldl (processOne thr now) states)).isSome := by
  induction procs with
  | nil => exact absurd h (by simp [seenPids])
  | cons p rest ih =>
    intro states
    rw [List.foldl_cons]
    by_cases hp : p.pid = some pid
    · exact foldl_processOne_isSome thr now rest pid _
        (processOne_self_isSome thr now states p pid hp)
    · have hrest : pid ∈ seenPids rest := by
        rw [mem_seenPids] at h ⊢
        obtain ⟨q, hq, hqe⟩ := h
        rcases List.mem_cons.mp hq with hh | hh
        · exact absurd (hh ▸ hqe) hp
        · exact ⟨q, hh, hqe⟩
      exact ih hrest _

theorem processOne_nodup (thr : List (String × ThresholdConfig)) (now : ℚ)
    (states : List (ℤ × List (String × AlertState))) (p : ProcEntry)
    (h : (akeys states).Nodup) : (akeys (processOne thr now states p)).Nodup := by
  cases hp : p.pid with
  | none => simpa [processOne, hp] using h
  | some q =>
    simp only [processOne, hp]
    cases hz : alookup q states with
    | some e => simpa [hz] using akeys_upsert_nodup q _ states h
    | none =>
      simp only [hz]
      exact akeys_upsert_nodup q _ _ (akeys_upsert_nodup q _ states h)

theorem foldl_processOne_nodup (thr : List (String × ThresholdConfig)) (now : ℚ)
    (procs : List ProcEntry) :
    ∀ states, (akeys states).Nodup →
    (akeys (procs.foldl (processOne thr now) states)).Nodup := by
  induction procs with
  | nil => intro states h; exact h
  | cons p rest ih =>
    intro states h
    rw [List.foldl_cons]
    exact ih _ (processOne_nodup thr now states p h)

theorem list_sum_zero_of_nonneg (l : List ℚ) (h : ∀ x ∈ l, 0 ≤ x)
    (hs : l.sum ≤ 0) : ∀ x ∈ l, x = 0 := by
  induction l with
  | nil => intro x hx; simp at hx
  | cons a rest ih =>
    have ha : 0 ≤ a := h a (List.mem_cons_self a rest)
    have hr : 0 ≤ rest.sum := List.sum_nonneg (fun x hx => h x (List.mem_cons_of_mem a hx))
    rw [List.sum_cons] at hs
    intro x hx
    rcases List.mem_cons.mp hx with hh | hh
    · rw [hh]; linarith
    · exact ih (fun y hy => h y (List.mem_cons_of_mem a hy)) (by linarith) x hh

theorem fiveMinData_subset_tenMinData (hist : List (ℚ × ℚ)) (now : ℚ) :
    ∀ p ∈ fiveMinData hist now, p ∈ tenMinData hist now := by
  intro p hp
  rw [fiveMinData, List.mem_filter] at hp
  rw [tenMinData, List.mem_filter]
  refine ⟨hp.1, ?_⟩
  have h5 : now - 300 ≤ p.1 := by simpa using hp.2
  simp only [decide_eq_true_eq]
  linarith

theorem windowMean_nonneg (l : List (ℚ × ℚ)) (h : ∀ p ∈ l, 0 ≤ p.2) :
    0 ≤ windowMean l := by
  rw [windowMean]
  apply div_nonneg
  · apply List.sum_nonneg
    intro x hx
    obtain ⟨p, hp, hpx⟩ := List.mem_map.mp hx
    exact hpx ▸ h p hp
  · exact Nat.cast_nonneg _

theorem windowMean_zero_values (l : List (ℚ × ℚ)) (h : ∀ p ∈ l, 0 ≤ p.2)
    (hl : l ≠ []) (hm : windowMean l ≤ 0) : ∀ p ∈ l, p.2 = 0 := by
  have hlen : (0 : ℚ) < (l.length : ℚ) := by
    have : 0 < l.length := List.length_pos.mpr hl
    exact_mod_cast this
  have hsum : (l.map Prod.snd).sum ≤ 0 := by
    rw [windowMean] at hm
    by_contra hc
    push_neg at hc
    have : 0 < (l.map Prod.snd).sum / (l.length : ℚ) := div_pos hc hlen
    linarith
  have hz := list_sum_zero_of_nonneg (l.map Prod.snd)
    (fun x hx => by
      obtain ⟨p, hp, hpx⟩ := List.mem_map.mp hx
      exact hpx ▸ h p hp) hsum
  intro p hp
  exact hz p.2 (List.mem_map.mpr ⟨p, hp, rfl⟩)

theorem windowMean_eq_zero_of_all_zero (l : List (ℚ × ℚ))
    (h : ∀ p ∈ l, p.2 = 0) : windowMean l = 0 := by
  rw [windowMean]
  have : (l.map Prod.snd).sum = 0 := by
    apply List.sum_eq_zero
    intro x hx
    obtain ⟨p, hp, hpx⟩ := List.mem_map.mp hx
    exact hpx ▸ h p hp
  rw [this, zero_div]

/-- C1: for any per-tick threshold state started fresh
(`last_alert_time = 0`), (a) breaching observations all strictly within the
configured duration of the first breach time, followed by a non-breaching
observation, never generate an alert; (b) a breach episode (wall-clock start
past the cooldown span) that lasts at least the configured duration generates
exactly one alert over the whole episode, no matter how many further
breaching ticks follow. -/
theorem claim_C1_duration_gating (cfg : ThresholdConfig) (v0 t0 : ℚ)
    (l : List (ℚ × ℚ)) (vr tr : ℚ) :
    ((∀ p ∈ (v0, t0) :: l, cfg.threshold ≤ p.1 ∧ p.2 - t0 < cfg.duration_seconds) →
      vr < cfg.threshold →
      (runThreshold false (AlertState.fresh cfg) (((v0, t0) :: l) ++ [(vr, tr)])).2 = 0)
    ∧
    ((∀ p ∈ (v0, t0) :: l, cfg.threshold ≤ p.1 ∧ t0 ≤ p.2) →
      cfg.cooldown_minutes * 60 ≤ t0 →
      (∃ p ∈ (v0, t0) :: l, cfg.duration_seconds ≤ p.2 - t0) →
      (runThreshold false (AlertState.fresh cfg) ((v0, t0) :: l)).2 = 1) := by
  constructor
  · intro hl hvr
    obtain ⟨hb0, hd0⟩ := hl (v0, t0) (List.mem_cons_self _ _)
    have hb0B : breachB false cfg.threshold v0 = true := decide_eq_true hb0
    have hdz : ¬ cfg.duration_seconds ≤
        t0 - (AlertState.fresh cfg).exceeded_since.getD t0 := not_le.mpr hd0
    have hstep := thresholdStep_breach_short false (AlertState.fresh cfg) v0 t0 hb0B hdz
    rw [List.cons_append]
    simp only [runThreshold, hstep]
    rw [runThreshold_append]
    have hmid := run_armed_noalert false l
      { config := (AlertState.fresh cfg).config,
        exceeded_since := some ((AlertState.fresh cfg).exceeded_since.getD t0),
        last_alert_time := (AlertState.fresh cfg).last_alert_time,
        current_value := v0,
        is_active := (AlertState.fresh cfg).is_active } t0
      rfl rfl
      (fun p hp => ⟨decide_eq_true (hl p (List.mem_cons_of_mem _ hp)).1,
                    (hl p (List.mem_cons_of_mem _ hp)).2⟩)
    rw [hmid.1]
    have hlast := thresholdStep_not_breach false
      (runThreshold false
        { config := (AlertState.fresh cfg).config,
          exceeded_since := some ((AlertState.fresh cfg).exceeded_since.getD t0),
          last_alert_time := (AlertState.fresh cfg).last_alert_time,
          current_value := v0,
          is_active := (AlertState.fresh cfg).is_active } l).1 vr tr
      (by rw [hmid.2.2.2.2]
          exact decide_eq_false (not_le.mpr hvr))
    simp only [runThreshold, hlast]
    simp
  · intro hl hcool hex
    obtain ⟨hb0, ht0⟩ := hl (v0, t0) (List.mem_cons_self _ _)
    have hb0B : breachB false cfg.threshold v0 = true := decide_eq_true hb0
    have hgd : (AlertState.fresh cfg).exceeded_since.getD t0 = t0 := rfl
    by_cases hdur : cfg.duration_seconds ≤ 0
    · have hstep := thresholdStep_fire false (AlertState.fresh cfg) v0 t0 hb0B
        (by rw [hgd]
            show cfg.duration_seconds ≤ t0 - t0
            linarith)
        rfl
        (by show cfg.cooldown_minutes * 60 ≤ t0 - 0
            linarith)
      have habs := run_active_absorb false l
        { config := (AlertState.fresh cfg).config,
          exceeded_since := some ((AlertState.fresh cfg).exceeded_since.getD t0),
          last_alert_time := t0,
          current_value := v0,
          is_active := true }
        rfl
        (fun p hp => decide_eq_true (hl p (List.mem_cons_of_mem _ hp)).1)
      simp only [runThreshold, hstep]
      rw [habs.1]
      simp
    · have hdz : ¬ cfg.duration_seconds ≤
          t0 - (AlertState.fresh cfg).exceeded_since.getD t0 := by
        rw [hgd]
        intro hc
        apply hdur
        linarith
      have hstep := thresholdStep_breach_short false (AlertState.fresh cfg) v0 t0 hb0B hdz
      have hcnt := run_armed_count l
        { config := (AlertState.fresh cfg).config,
          exceeded_since := some ((AlertState.fresh cfg).exceeded_since.getD t0),
          last_alert_time := (AlertState.fresh cfg).last_alert_time,
          current_value := v0,
          is_active := (AlertState.fresh cfg).is_active } t0
        rfl rfl rfl hcool
        (fun p hp => ⟨decide_eq_true (hl p (List.mem_cons_of_mem _ hp)).1,
                      (hl p (List.mem_cons_of_mem _ hp)).2⟩)
      have hexl : ∃ p ∈ l, cfg.duration_seconds ≤ p.2 - t0 := by
        obtain ⟨p, hp, hple⟩ := hex
        rcases List.mem_cons.mp hp with hh | hh
        · exfalso
          apply hdur
          have hpt : p.2 = t0 := by rw [hh]
          rw [hpt] at hple
          linarith
        · exact ⟨p, hh, hple⟩
      simp only [runThreshold, hstep]
      rw [hcnt]
      simp [hexl]
      obtain ⟨p, hp, hple⟩ := hexl
      exact ⟨p.1, p.2, hp, hple⟩

theorem claim_C1_witness :
    (runThreshold false (AlertState.fresh cfgCpuHigh)
      (((85, 1000) :: [(95, 1030), (85, 1059)]) ++ [(50, 1065)])).2 = 0 ∧
    (runThreshold false (AlertState.fresh cfgCpuHigh)
      ((85, 1000) :: [(85, 1030), (85, 1060), (85, 1090)])).2 = 1 := by
  constructor
  · exact (claim_C1_duration_gating cfgCpuHigh 85 1000 [(95, 1030), (85, 1059)] 50 1065).1
      (of_decide_eq_true (by with_unfolding_all rfl))
      (of_decide_eq_true (by with_unfolding_all rfl))
  · exact (claim_C1_duration_gating cfgCpuHigh 85 1000 [(85, 1030), (85, 1060), (85, 1090)] 0 0).2
      (of_decide_eq_true (by with_unfolding_all rfl))
      (of_decide_eq_true (by with_unfolding_all rfl))
      (of_decide_eq_true (by with_unfolding_all rfl))

/-- C2: once an alert state is active, any sequence of further breaching
observations — at arbitrary later times, in particular ones far past the
cooldown — produces no further alert and leaves the alert active; and
(concretely) a recovery tick followed by a new breach episode that satisfies
the duration and cooldown gates does fire again, exactly once. -/
theorem claim_C2_active_blocks (s : AlertState) (l : List (ℚ × ℚ))
    (hact : s.is_active = true)
    (hbr : ∀ p ∈ l, s.config.threshold ≤ p.1) :
    ((runThreshold false s l).2 = 0 ∧ (runThreshold false s l).1.is_active = true) ∧
    (runThreshold false activeStateEx [(10, 1100), (90, 1700), (90, 1760)]).2 = 1 := by
  have habs := run_active_absorb false l s hact
    (fun p hp => decide_eq_true (hbr p hp))
  exact ⟨⟨habs.1, habs.2.1⟩, of_decide_eq_true (by with_unfolding_all rfl)⟩

theorem claim_C2_witness :
    ((runThreshold false activeStateEx [(85, 2000), (85, 2700), (85, 3400)]).2 = 0 ∧
     (runThreshold false activeStateEx [(85, 2000), (85, 2700), (85, 3400)]).1.is_active = true) ∧
    (runThreshold false activeStateEx [(10, 1100), (90, 1700), (90, 1760)]).2 = 1 :=
  claim_C2_active_blocks activeStateEx [(85, 2000), (85, 2700), (85, 3400)]
    (of_decide_eq_true (by with_unfolding_all rfl))
    (of_decide_eq_true (by with_unfolding_all rfl))

/-- C4: the invariant "`is_active = true` implies `exceeded_since` is set"
holds after every operation that mutates an alert state: after any evaluation
step of any per-tick check (unconditionally), on the fresh states installed
by `_initialize_alert_states`, and across `set_threshold` (which only ever
installs a fresh state). -/
theorem claim_C4_active_inv :
    (∀ (inverted : Bool) (s : AlertState) (v t : ℚ),
      stateInv (thresholdStep inverted s v t).1)
    ∧ (∀ cfg : ThresholdConfig, stateInv (AlertState.fresh cfg))
    ∧ (∀ (m : Monitor) (name : String) (thr dur : ℚ) (sev : AlertSeverity)
        (msg : Option String),
        (∀ n s, alookup n m.alert_states = some s → stateInv s) →
        ∀ n s, alookup n (setThreshold m name thr dur sev msg).alert_states = some s →
        stateInv s)
    ∧ (∀ (thresholds : List (String × ThresholdConfig)) (n : String) (s : AlertState),
        alookup n (initializeAlertStates thresholds) = some s → stateInv s) := by
  refine ⟨?_, ?_, ?_, ?_⟩
  · intro inverted s v t
    unfold stateInv thresholdStep
    by_cases hb : breachB inverted s.config.threshold v
    · simp only [hb, if_pos]
      split
      · split
        · intro _; simp
        · intro _; simp
      · intro _; simp
    · simp [hb]
  · intro cfg
    intro h
    simp [AlertState.fresh] at h
  · intro m name thr dur sev msg hinv n s hs
    simp only [setThreshold] at hs
    by_cases hex : (alookup name m.alert_states).isSome
    · rw [if_pos hex] at hs
      by_cases hn : n = name
      · subst hn
        rw [alookup_upsert_self] at hs
        cases hs
        intro h
        simp [AlertState.fresh] at h
      · rw [alookup_upsert_ne name n _ _ hn] at hs
        exact hinv n s hs
    · rw [if_neg hex] at hs
      exact hinv n s hs
  · intro thresholds n s hs
    rw [initializeAlertStates, alookup_map_snd] at hs
    cases hz : alookup n thresholds with
    | none => rw [hz] at hs; simp at hs
    | some c =>
      rw [hz] at hs
      have hs2 : AlertState.fresh c = s := by simpa using hs
      subst hs2
      intro h
      simp [AlertState.fresh] at h

theorem claim_C4_witness :
    stateInv (thresholdStep false activeStateEx 90 2000).1 ∧
    (∀ n s, alookup n (setThreshold m0cpu "cpu_usage_high" 85 120
        AlertSeverity.WARNING none).alert_states = some s → stateInv s) :=
  ⟨claim_C4_active_inv.1 false activeStateEx 90 2000,
   claim_C4_active_inv.2.2.1 m0cpu "cpu_usage_high" 85 120 AlertSeverity.WARNING none
     (fun n s hs => claim_C4_active_inv.2.2.2 cpuDefaultThresholds n s hs)⟩

/-- C5 (counterexample to the claim as stated): calling `set_threshold` on
`cpu_usage_high` with the invalid duration `-5` does not keep the previous
valid value `60`; the negative duration is stored verbatim. -/
theorem claim_C5_counterexample :
    (alookup "cpu_usage_high" m0cpu.thresholds).map ThresholdConfig.duration_seconds
      = some 60 ∧
    (alookup "cpu_usage_high"
      (setThreshold m0cpu "cpu_usage_high" 80 (-5) AlertSeverity.WARNING none).thresholds).map
        ThresholdConfig.duration_seconds = some (-5) ∧
    ((-5 : ℚ) ≠ 60) :=
  ⟨by with_unfolding_all rfl, by with_unfolding_all rfl,
   of_decide_eq_true (by with_unfolding_all rfl)⟩

/-- C5 (amended): `set_threshold` performs no validation: any configuration
values, including a negative `duration_seconds`, are stored verbatim for the
named threshold, replacing the previous values; the call is a total function
(no exception can propagate, since no code path raises). -/
theorem claim_C5_no_validation (m : Monitor) (name : String) (thr dur : ℚ)
    (sev : AlertSeverity) (msg : Option String) :
    (alookup name (setThreshold m name thr dur sev msg).thresholds).map
      ThresholdConfig.threshold = some thr ∧
    (alookup name (setThreshold m name thr dur sev msg).thresholds).map
      ThresholdConfig.duration_seconds = some dur := by
  cases hz : alookup name m.thresholds with
  | none =>
    simp only [setThreshold, hz]
    refine ⟨?_, ?_⟩ <;> rw [alookup_upsert_self] <;> rfl
  | some cfg =>
    simp only [setThreshold, hz]
    refine ⟨?_, ?_⟩ <;> rw [alookup_upsert_self] <;> rfl

/-- C6: whenever at least 10 history samples exist, the value fed to the
sustained threshold's evaluation step is the mean of the trailing 10-minute
window when that window holds at least 10 samples (given the CPU values are
non-negative, as percentages are), and otherwise the mean of the (non-empty)
trailing 5-minute window; the instantaneous reading is never consulted. -/
theorem claim_C6_sustained_aggregate (hist : List (ℚ × ℚ)) (s : AlertState) (now : ℚ)
    (h10 : 10 ≤ hist.length) (hnn : ∀ p ∈ hist, 0 ≤ p.2) :
    (10 ≤ (tenMinData hist now).length →
      checkSustainedLoad hist s now =
        thresholdStep false s (windowMean (tenMinData hist now)) now)
    ∧ ((tenMinData hist now).length < 10 →
      fiveMinData hist now ≠ [] →
      checkSustainedLoad hist s now =
        thresholdStep false s (windowMean (fiveMinData hist now)) now) := by
  have hno : ¬ hist.length < 10 := not_lt.mpr h10
  have hnn10 : ∀ p ∈ tenMinData hist now, 0 ≤ p.2 := by
    intro p hp
    exact hnn p (List.mem_filter.mp hp).1
  constructor
  · intro hlen
    rw [checkSustainedLoad, if_neg hno]
    have hta : tenMinAvg hist now = windowMean (tenMinData hist now) := by
      rw [tenMinAvg, if_pos hlen]
    congr 1
    unfold sustainedValue
    rw [hta]
    by_cases hpos : 0 < windowMean (tenMinData hist now)
    · rw [if_pos hpos]
    · rw [if_neg hpos]
      have hzero : windowMean (tenMinData hist now) = 0 := by
        have := windowMean_nonneg (tenMinData hist now) hnn10
        linarith [not_lt.mp hpos]
      have hne : tenMinData hist now ≠ [] := by
        intro hc
        rw [hc] at hlen
        simp at hlen
      have hall := windowMean_zero_values (tenMinData hist now) hnn10 hne
        (le_of_eq hzero)
      have hall5 : ∀ p ∈ fiveMinData hist now, p.2 = 0 := by
        intro p hp
        exact hall p (fiveMinData_subset_tenMinData hist now p hp)
      rw [hzero, fiveMinAvg]
      by_cases h5 : fiveMinData hist now = []
      · rw [if_pos h5]
      · rw [if_neg h5]
        exact windowMean_eq_zero_of_all_zero (fiveMinData hist now) hall5
  · intro hlen hne
    rw [checkSustainedLoad, if_neg hno]
    congr 1
    have hta : tenMinAvg hist now = 0 := by
      rw [tenMinAvg, if_neg (not_le.mpr hlen)]
    unfold sustainedValue
    rw [hta, if_neg (lt_irrefl 0), fiveMinAvg, if_neg hne]

theorem claim_C6_witness :
    checkSustainedLoad hist0 (AlertState.fresh cfgCpuSustained) 1000 =
      thresholdStep false (AlertState.fresh cfgCpuSustained)
        (windowMean (tenMinData hist0 1000)) 1000 :=
  (claim_C6_sustained_aggregate hist0 (AlertState.fresh cfgCpuSustained) 1000
    (of_decide_eq_true (by with_unfolding_all rfl))
    (of_decide_eq_true (by with_unfolding_all rfl))).1
    (of_decide_eq_true (by with_unfolding_all rfl))

theorem netCheckThreshold_missing (states : List (String × AlertState))
    (name : String) (v t : ℚ) (h : alookup name states = none) :
    netCheckThreshold states name v t = (states, false) := by
  simp [netCheckThreshold, h]

theorem runWifiTicks_no_wifi_state (ticks : List (Bool × ℚ × ℚ)) :
    ∀ states, alookup "wifi_signal_low" states = none →
    runWifiTicks states ticks = (states, 0) := by
  induction ticks with
  | nil => intro states _; rfl
  | cons p rest ih =>
    intro states h
    have hstep : checkWifiThresholds p.1 p.2.1 states p.2.2 = (states, false) := by
      cases hc : p.1 <;>
        simp [checkWifiThresholds, netCheckThreshold_missing states _ _ _ h]
    simp [runWifiTicks, hstep, ih states h]

/-- C3: under the default configuration `wifi_signal_low` lives only in
`_wifi_alert_states`, never in `_alert_states`, so `_check_threshold` returns
at its `name not in self._alert_states` guard and the WiFi check can never
fire — no matter how long a breaching signal (e.g. −80 dBm ≤ −75 dBm) is
sustained while connected.  The intended inverted comparison logic is
nonetheless present: for a −75 threshold a value of −70 is not a breach and
resets the state, as the claim demands. -/
theorem claim_C3_wifi_state_unreachable :
    (∀ ticks : List (Bool × ℚ × ℚ),
      runWifiTicks (initializeAlertStates netDefaultThresholds) ticks =
        (initializeAlertStates netDefaultThresholds, 0))
    ∧ (alookup "wifi_signal_low" (initializeAlertStates wifiThresholdsDefault)).isSome
    ∧ (∀ (st : AlertState) (t : ℚ), st.config.threshold = -75 →
        thresholdStep true st (-70) t =
          ({ st with current_value := -70, exceeded_since := none,
                     is_active := false }, false)) := by
  refine ⟨?_, ?_, ?_⟩
  · intro ticks
    apply runWifiTicks_no_wifi_state
    with_unfolding_all rfl
  · with_unfolding_all rfl
  · intro st t hthr
    apply thresholdStep_not_breach
    rw [hthr]
    with_unfolding_all rfl

theorem claim_C3_witness :
    runWifiTicks (initializeAlertStates netDefaultThresholds)
      [(true, -80, 1000), (true, -80, 1150), (true, -80, 1320)] =
      (initializeAlertStates netDefaultThresholds, 0) ∧
    thresholdStep true (AlertState.fresh cfgWifiSignalLow) (-70) 500 =
      ({ (AlertState.fresh cfgWifiSignalLow) with
         current_value := -70,
         exceeded_since := none,
         is_active := false }, false) :=
  ⟨claim_C3_wifi_state_unreachable.1 [(true, -80, 1000), (true, -80, 1150), (true, -80, 1320)],
   claim_C3_wifi_state_unreachable.2.2 (AlertState.fresh cfgWifiSignalLow) 500 rfl⟩

/-- C7 (counterexample to the claim as stated): for a CPU alert with current
value 92.34, `_format_alert_message` substitutes `{value}` with
`str(round(92.34, 1)) = "92.3"`, not with the unit-aware rendering
`"92.34"` — so CPU alert messages are not produced by the unit-aware
formatter. -/
theorem claim_C7_counterexample :
    formatAlertMessageCpu c7ValueState none none none 0 = "value=92.3" ∧
    formatValueWithUnit c7ValueState.current_value = "92.34" ∧
    formatAlertMessageCpu c7ValueState none none none 0 ≠
      "value=" ++ formatValueWithUnit c7ValueState.current_value :=
  ⟨by with_unfolding_all rfl, by with_unfolding_all rfl,
   of_decide_eq_true (by with_unfolding_all rfl)⟩

/-- C7 (amended): network alert messages render `{threshold}` and `{value}`
through the unit-aware formatter (values above 10^6 as `"X.XX MB/s"`, above
10^3 as `"X.XX KB/s"`, else raw); CPU alert messages substitute `{threshold}`
raw and `{value}` rounded to one decimal; both render `{duration}` as the
minutes since `exceeded_since` rounded to one decimal.  In particular the
claim's concrete example holds: with `core_id = 3`, `threshold = 90.0` and
`exceeded_since` 125 seconds in the past, the template renders to
`"Core 3 usage above 90.0% for 2.1 minutes"`. -/
theorem claim_C7_message_rendering :
    formatAlertMessageCpu c7CoreState (some 3) none none 1000 =
      "Core 3 usage above 90.0% for 2.1 minutes" ∧
    formatAlertMessageNet c7NetState none none 1000 =
      "Network bandwidth usage is critically high at 2.50 MB/s bytes/s, exceeding 80.00 MB/s bytes/s" ∧
    formatAlertMessageCpu c7ValueState none none none 0 = "value=92.3" :=
  ⟨by with_unfolding_all rfl, by with_unfolding_all rfl, by with_unfolding_all rfl⟩

/-- C8: dispatching one event attempts delivery to exactly the alive,
filter-matching observers, in order, regardless of which observers' `update`
callbacks raise (each exception is caught per observer); and the dispatch
worker processes every queued event in order — an exception inside one
event's delivery never terminates the loop, because `_dispatch_event` catches
it before returning. -/
theorem claim_C8_dispatch_isolation (obs : List ObserverModel) (e : MetricEvent)
    (events : List MetricEvent) :
    (dispatchEvent obs e).map Prod.fst =
      (obs.filter (fun o => o.alive && filterAllows o.eventFilter e)).map
        ObserverModel.oid ∧
    dispatchLoop obs (events.map some) = events.map (dispatchEvent obs) := by
  constructor
  · induction obs with
    | nil => rfl
    | cons o rest ih =>
      by_cases ha : o.alive
      · by_cases hf : filterAllows o.eventFilter e
        · simp [dispatchEvent, List.filter_cons, ha, hf, ih]
        · simp [dispatchEvent, List.filter_cons, ha, hf, ih]
      · simp [dispatchEvent, List.filter_cons, ha, ih]
  · induction events with
    | nil => rfl
    | cons ev rest ih => simp [dispatchLoop, ih]

/-- C9 (counterexample to the claim as stated): on a tick whose process
snapshot is empty, `_check_process_thresholds` returns at its
`if not processes: return` guard, so a stale pid (absent from the snapshot,
with no active alert) is NOT removed, although the claim requires removal. -/
theorem claim_C9_counterexample :
    (7 : ℤ) ∉ seenPids ([] : List ProcEntry) ∧
    ((alookup 7 c9StaleStates).getD []).any (fun r => r.2.is_active) = false ∧
    checkProcessThresholds processThresholdsDefault c9StaleStates [] 1000 =
      c9StaleStates ∧
    alookup 7 (checkProcessThresholds processThresholdsDefault c9StaleStates [] 1000) ≠
      none :=
  ⟨of_decide_eq_true (by with_unfolding_all rfl),
   by with_unfolding_all rfl,
   by with_unfolding_all rfl,
   of_decide_eq_true (by with_unfolding_all rfl)⟩

/-- C9 (amended): on every per-process tick whose snapshot is non-empty, an
entry for a pid absent from the snapshot survives (unchanged) exactly when
one of its states is active, and is removed exactly when none is; an entry
for a pid present in the snapshot is always present afterwards.  On a tick
with an empty snapshot the check returns early and removes nothing. -/
theorem claim_C9_process_gc (thr : List (String × ThresholdConfig))
    (states : List (ℤ × List (String × AlertState))) (procs : List ProcEntry)
    (now : ℚ) (pid : ℤ) :
    ((akeys states).Nodup → procs ≠ [] → pid ∉ seenPids procs →
      alookup pid (checkProcessThresholds thr states procs now) =
        (if ((alookup pid states).getD []).any (fun r => r.2.is_active) then
          alookup pid states
        else none))
    ∧ ((akeys states).Nodup → pid ∈ seenPids procs →
      (alookup pid (checkProcessThresholds thr states procs now)).isSome)
    ∧ (procs = [] → checkProcessThresholds thr states procs now = states) := by
  refine ⟨?_, ?_, ?_⟩
  · intro hnd hne habs
    have hempty : procs.isEmpty = false := by
      cases procs
      · exact absurd rfl hne
      · rfl
    simp only [checkProcessThresholds, hempty, Bool.false_eq_true, if_false]
    have hndf := foldl_processOne_nodup thr now procs states hnd
    rw [alookup_filter pid _ _ hndf, foldl_processOne_frame thr now procs pid habs states]
    cases hz : alookup pid states with
    | none => simp
    | some entry =>
      dsimp only
      rw [decide_eq_false habs]
      simp only [Bool.false_or, Option.getD_some]
  · intro hnd hmem
    have hne : procs ≠ [] := by
      intro hc
      rw [hc] at hmem
      simp [seenPids] at hmem
    have hempty : procs.isEmpty = false := by
      cases procs
      · exact absurd rfl hne
      · rfl
    simp only [checkProcessThresholds, hempty, Bool.false_eq_true, if_false]
    have hndf := foldl_processOne_nodup thr now procs states hnd
    rw [alookup_filter pid _ _ hndf]
    have hsome := foldl_processOne_creates thr now procs pid hmem states
    cases hz : alookup pid (procs.foldl (processOne thr now) states) with
    | none => rw [hz] at hsome; simp at hsome
    | some entry =>
      dsimp only
      rw [decide_eq_true hmem]
      simp
  · intro hmpt
    rw [hmpt]
    rfl

theorem claim_C9_witness :
    alookup 3 (checkProcessThresholds processThresholdsDefault c9MixedStates
      [⟨some 5, 90, "proc5"⟩] 1000) =
      (if ((alookup 3 c9MixedStates).getD []).any (fun r => r.2.is_active) then
        alookup 3 c9MixedStates
      else none) :=
  (claim_C9_process_gc processThresholdsDefault c9MixedStates
    [⟨some 5, 90, "proc5"⟩] 1000 3).1
    (of_decide_eq_true (by with_unfolding_all rfl))
    (List.cons_ne_nil _ _)
    (of_decide_eq_true (by with_unfolding_all rfl))

/-- C10: calling `set_threshold` with a name that has no alert-state entry
registers the config but creates no state: the alert-state map is unchanged,
so the per-tick CPU evaluation (which iterates only that map) can never fire
an alert under the new name, and `get_active_alerts` can never report it;
only a later `_initialize_alert_states` (run by a fresh `start()`) creates
the state for the registered name. -/
theorem claim_C10_new_threshold_inert (m : Monitor) (name : String) (thr dur : ℚ)
    (sev : AlertSeverity) (msg : Option String)
    (h : alookup name m.alert_states = none) :
    (setThreshold m name thr dur sev msg).alert_states = m.alert_states
    ∧ (alookup name (setThreshold m name thr dur sev msg).thresholds).isSome
    ∧ (∀ v t, name ∉
        (checkCpuThresholds (setThreshold m name thr dur sev msg).alert_states v t).2)
    ∧ (∀ v t, name ∉ getActiveAlertNames
        (checkCpuThresholds (setThreshold m name thr dur sev msg).alert_states v t).1)
    ∧ (alookup name
        (initializeAlertStates (setThreshold m name thr dur sev msg).thresholds)).isSome := by
  have hstates : (setThreshold m name thr dur sev msg).alert_states = m.alert_states := by
    simp only [setThreshold, h, Option.isSome_none, Bool.false_eq_true, if_false]
  have hthr : (alookup name (setThreshold m name thr dur sev msg).thresholds).isSome := by
    simp only [setThreshold]
    rw [alookup_upsert_self]
    rfl
  have hmem : name ∉ akeys m.alert_states := (alookup_eq_none_iff name m.alert_states).mp h
  refine ⟨hstates, hthr, ?_, ?_, ?_⟩
  · intro v t hin
    rw [hstates] at hin
    exact hmem (checkCpuThresholds_fired_mem m.alert_states v t name hin)
  · intro v t hin
    rw [hstates] at hin
    have h2 := getActiveAlertNames_mem _ name hin
    rw [checkCpuThresholds_keys] at h2
    exact hmem h2
  · rw [initializeAlertStates, alookup_map_snd]
    cases hz : alookup name (setThreshold m name thr dur sev msg).thresholds with
    | none => rw [hz] at hthr; simp at hthr
    | some c => rfl

theorem claim_C10_witness :
    (setThreshold m0cpu "disk_usage_high" 90 60 AlertSeverity.WARNING none).alert_states
      = m0cpu.alert_states ∧
    "disk_usage_high" ∉ (checkCpuThresholds (setThreshold m0cpu "disk_usage_high" 90 60
        AlertSeverity.WARNING none).alert_states 99 5000).2 :=
  have hc10 := claim_C10_new_threshold_inert m0cpu "disk_usage_high" 90 60
    AlertSeverity.WARNING none (of_decide_eq_true (by with_unfolding_all rfl))
  ⟨hc10.1, hc10.2.2.1 99 5000⟩
